import Mathlib

/-!
Verification development for the `fhir-term-browser` client (`src/main.js`).

The definitions below are a shallow embedding of the search-orchestration
layer of `src/main.js`: the shared `context` object, token minting in
`subscribe`, the merged/deduplicated resource queries
(`mergedFHIRResourceQueries` and its inner `processResults` loop), the
ECL string construction (`updateSearchString`), the pagination arithmetic
(`getPagination` call sites and the `onPageChange` closures), and the
success/error response handling of `handleSearchField`.  Network transport
(jQuery ajax) and JSON pretty-printing are external collaborators and are
modelled as function parameters; DOM containers are modelled as a record of
their observable contents.
-/

namespace TermBrowser

/-- A FHIR resource as it appears inside a search-result entry.  Only the
`id` field is inspected by the orchestration code (line 111 of `main.js`);
`display` stands for the rest of the payload so that two entries with the
same id can still differ. -/
structure Resource where
  id : String
  display : String
deriving Repr, DecidableEq

/-- One element of a FHIR bundle `entry` array: `{fullUrl, resource}`. -/
structure Entry where
  fullUrl : String
  resource : Resource
deriving Repr, DecidableEq

/-- The resource identifier used for deduplication (`item.resource.id`). -/
def entryId (e : Entry) : String :=
  e.resource.id

/-- Raw body of a FHIR resource search response: the `entry` attribute may
be absent (`response.entry || []`, line 70 of `main.js`). -/
structure RawResponse where
  entry : Option (List Entry)
deriving Repr, DecidableEq

/-- The error produced by `query` (lines 49-52 of `main.js`): a single
message string (either the response text or the HTTP status). -/
structure GatewayError where
  message : String
deriving Repr, DecidableEq

/-- Per-search-kind query parameters, `context.conceptSearch` and
`context.eclSearch` (lines 16-27 of `main.js`). -/
structure PageState where
  count : Nat
  offset : Nat
  activeOnly : Bool
  includeDesignations : Bool
deriving Repr, DecidableEq

/-- The global mutable `context` object (lines 11-28 of `main.js`).  Note
that there is a single `latestSearchToken` cell, not one per search kind. -/
structure Context where
  latestSearchToken : Option Nat
  codeSystem : Option Entry
  valueSet : Option Entry
  concept : Option Entry
  conceptSearch : PageState
  eclSearch : PageState
deriving Repr, DecidableEq

/-- The initial value of `context` (lines 11-28 of `main.js`). -/
def initialContext : Context :=
  { latestSearchToken := none
    codeSystem := none
    valueSet := none
    concept := none
    conceptSearch :=
      { count := 100, offset := 0, activeOnly := true, includeDesignations := true }
    eclSearch :=
      { count := 100, offset := 0, activeOnly := true, includeDesignations := true } }

/-- The four logical search surfaces of the page: the Code-System search,
the Value-Set search, the Concept search and the ECL search. -/
inductive Surface
  | codeSystem
  | valueSet
  | concept
  | ecl
deriving Repr, DecidableEq

/-- Token minting as performed by `subscribe` (lines 154-155 of `main.js`):
`context.latestSearchToken = token`.  The handler writes the one shared
cell whatever surface the subscribed field belongs to, which is why the
`Surface` argument is unused. -/
def mintToken (ctx : Context) (_surface : Surface) (token : Nat) : Context :=
  { ctx with latestSearchToken := some token }

/-- Replay a sequence of mint events (surface, token) against a context. -/
def runMints (ctx : Context) (events : List (Surface × Nat)) : Context :=
  events.foldl (fun c e => mintToken c e.1 e.2) ctx

/-- The token of the last mint event that happened on surface `s`. -/
def latestTokenOn (s : Surface) (events : List (Surface × Nat)) : Option Nat :=
  ((events.filter (fun e => e.1 = s)).getLast?).map (fun e => e.2)

/-- The token of the last mint event overall, across all surfaces. -/
def latestTokenGlobal (events : List (Surface × Nat)) : Option Nat :=
  (events.getLast?).map (fun e => e.2)

/-- The staleness check of `handleSearchField` (line 255 of `main.js`):
a response is applied exactly when its token equals the shared
`context.latestSearchToken`. -/
def isCurrent (ctx : Context) (token : Nat) : Bool :=
  ctx.latestSearchToken = some token

/-- JavaScript `String.prototype.trim`: strip whitespace from both ends. -/
def jsTrim (s : String) : String :=
  String.mk (((s.data.dropWhile Char.isWhitespace).reverse.dropWhile
    Char.isWhitespace).reverse)

/-- The kinds of field events `subscribe` listens to (line 151). -/
inductive EventType
  | change
  | keypress
deriving Repr, DecidableEq

/-- A field event as seen by the `subscribe` handler: its type, the key
code (meaningful for keypress) and the field's current value. -/
structure FieldEvent where
  type : EventType
  keyCode : Nat
  value : String
deriving Repr, DecidableEq

/-- The event handler installed by `subscribe` (lines 150-157 of
`main.js`), with `now` standing for `+ new Date()`.  Returns the updated
context together with whether the search callback was invoked. -/
def subscribeHandler (minLength : Option Nat) (evt : FieldEvent) (now : Nat)
    (ctx : Context) : Context × Bool :=
  let minLength := minLength.getD 2
  if evt.type = EventType.keypress ∧ evt.keyCode ≠ 13 then (ctx, false)
  else if (jsTrim evt.value).length < minLength then (ctx, false)
  else ({ ctx with latestSearchToken := some now }, true)

/-- `handleECLFilter` subscribes the ECL search field with `minLength = 1`
(line 781 of `main.js`); every other surface omits the argument and gets
the default of 2. -/
def eclSearchMinLength : Option Nat :=
  some 1

/-- `queryFHIRResource` (lines 68-72 of `main.js`): run one gateway query
and project the bundle onto its entry list, absent `entry` meaning zero
results.  The transport is the `net` parameter. -/
def queryFHIRResource
    (net : String → List (String × String) → Except GatewayError RawResponse)
    (operation : String) (params : List (String × String)) :
    Except GatewayError (List Entry) :=
  (net operation params).map (fun response => response.entry.getD [])

/-- The inner `forEach` of `processResults` (lines 110-115 of `main.js`):
fold one response's items into the accumulators, pushing an item and its
id only when the id is not already in `uniqueIds`. -/
def mergeResponse : List Entry → List String → List Entry →
    List String × List Entry
  | [], uniqueIds, uniqueResults => (uniqueIds, uniqueResults)
  | item :: rest, uniqueIds, uniqueResults =>
    if entryId item ∈ uniqueIds then
      mergeResponse rest uniqueIds uniqueResults
    else
      mergeResponse rest (uniqueIds ++ [entryId item])
        (uniqueResults ++ [item])

/-- The recursive `processResults` loop (lines 103-119 of `main.js`) in pop
order.  The JS loop repeatedly takes `queries.pop()` from the pending
array, i.e. it consumes that array back to front; this worker receives the
pending array already reversed, so its head is the next `pop`.  An empty
array resolves with the accumulated unique results (lines 104-106); a
rejected query rejects the whole merge (line 117). -/
def processResultsPopOrder :
    List (Except GatewayError (List Entry)) → List String → List Entry →
    Except GatewayError (List Entry)
  | [], _, uniqueResults => Except.ok uniqueResults
  | lastQuery :: remaining, uniqueIds, uniqueResults =>
    match lastQuery with
    | Except.error e => Except.error e
    | Except.ok results =>
      let merged := mergeResponse results uniqueIds uniqueResults
      processResultsPopOrder remaining merged.1 merged.2

/-- `processResults` applied to the pending `queries` array as built by the
`forEach` push loop (lines 93-96): popping consumes it in reverse. -/
def processResults (queries : List (Except GatewayError (List Entry)))
    (uniqueIds : List String) (uniqueResults : List Entry) :
    Except GatewayError (List Entry) :=
  processResultsPopOrder queries.reverse uniqueIds uniqueResults

/-- `mergedFHIRResourceQueries` (lines 90-124 of `main.js`): launch one
`queryFHIRResource` per `[operation, params]` pair, then merge the results
with identifier-based deduplication. -/
def mergedFHIRResourceQueries
    (net : String → List (String × String) → Except GatewayError RawResponse)
    (queriesArguments : List (String × List (String × String))) :
    Except GatewayError (List Entry) :=
  processResults
    (queriesArguments.map (fun pair => queryFHIRResource net pair.1 pair.2))
    [] []

/-- The per-query entry lists produced by a transport that never fails,
in request order: what each launched `queryFHIRResource` resolves with. -/
def launchedResults (net : String → List (String × String) → RawResponse)
    (queriesArguments : List (String × List (String × String))) :
    List (List Entry) :=
  queriesArguments.map (fun pair => ((net pair.1 pair.2).entry).getD [])

/-- Canonical first-seen deduplication by resource identifier, as the spec
words it: keep an entry exactly when its identifier has not been seen
before it in the consumed stream (nor in the initial `seen` set). -/
def dedupFirstSeen (seen : List String) : List Entry → List Entry
  | [] => []
  | e :: rest =>
    if entryId e ∈ seen then dedupFirstSeen seen rest
    else e :: dedupFirstSeen (seen ++ [entryId e]) rest

/-- Modelled from the spec reading under test for claim C4: consume the
responses in the order the requests were given, deduplicating by
first-seen identifier. -/
def mergedInRequestOrder (responses : List (List Entry)) : List Entry :=
  dedupFirstSeen [] responses.flatten

/-- One row of ECL filter fields: the short operator (`.val()` of the
select), its `data-long-value`, the code and the label (lines 646-651 of
`main.js`). -/
structure FilterRow where
  op : String
  opLong : String
  code : String
  label : String
deriving Repr, DecidableEq

/-- The body of the `each` loop of `updateSearchString` (lines 652-666 of
`main.js`): push the row's contribution onto the `shortECL` and `longECL`
arrays, or push nothing when the row has no code and is not `ANY`. -/
def updateSearchStringStep (acc : List String × List String)
    (filter : FilterRow) : List String × List String :=
  if filter.opLong = "ANY" then
    (acc.1 ++ [filter.op], acc.2 ++ [filter.opLong])
  else if filter.code ≠ "" then
    if filter.label ≠ "" then
      (acc.1 ++ [filter.op ++ " " ++ filter.code ++ "|" ++ filter.label ++ "|"],
       acc.2 ++ [filter.opLong ++ " " ++ filter.code ++ "|" ++ filter.label ++ "|"])
    else
      (acc.1 ++ [filter.op ++ " " ++ filter.code],
       acc.2 ++ [filter.opLong ++ " " ++ filter.code])
  else acc

/-- `updateSearchString` (lines 638-674 of `main.js`) restricted to its
pure content: rebuild the `shortECL` and `longECL` arrays from the ordered
filter rows. -/
def updateSearchString (rows : List FilterRow) : List String × List String :=
  rows.foldl updateSearchStringStep ([], [])

/-- The value written into the ECL search field (line 672 of `main.js`):
`shortECL.join(", ")`. -/
def eclSearchFieldValue (rows : List FilterRow) : String :=
  String.intercalate ", " (updateSearchString rows).1

/-- The spec's per-row short-form emission: `ANY` rows emit the bare short
operator, rows with an empty code are omitted, labelled rows emit
`op code|label|`, unlabelled ones `op code`. -/
def emitRowShort (f : FilterRow) : Option String :=
  if f.opLong = "ANY" then some f.op
  else if f.code = "" then none
  else if f.label ≠ "" then
    some (f.op ++ " " ++ f.code ++ "|" ++ f.label ++ "|")
  else some (f.op ++ " " ++ f.code)

/-- The spec's per-row long-form emission, using the long operator name. -/
def emitRowLong (f : FilterRow) : Option String :=
  if f.opLong = "ANY" then some f.opLong
  else if f.code = "" then none
  else if f.label ≠ "" then
    some (f.opLong ++ " " ++ f.code ++ "|" ++ f.label ++ "|")
  else some (f.opLong ++ " " ++ f.code)

/-- Ceiling division on naturals: `Math.ceil(a / b)` for positive `b`. -/
def ceilDiv (a b : Nat) : Nat :=
  (a + b - 1) / b

/-- The current-page argument of the `getPagination` call (line 272 of
`main.js`): `Math.ceil(response.offset / response.pageSize) + 1`. -/
def paginationCurrentPage (offset pageSize : Nat) : Nat :=
  ceilDiv offset pageSize + 1

/-- The page-count argument of the `getPagination` call (line 273 of
`main.js`): `Math.ceil(response.total / response.pageSize)`. -/
def paginationPageCount (total pageSize : Nat) : Nat :=
  ceilDiv total pageSize

/-- The concept `onPageChange` closure (lines 499-502 of `main.js`):
`context.conceptSearch.offset = context.conceptSearch.count * (page - 1)`. -/
def conceptPageChange (ctx : Context) (page : Nat) : Context :=
  { ctx with conceptSearch :=
      { ctx.conceptSearch with offset := ctx.conceptSearch.count * (page - 1) } }

/-- The ECL `onPageChange` closure (lines 624-627 of `main.js`):
`context.eclSearch.offset = context.eclSearch.count * (page - 1)`. -/
def eclPageChange (ctx : Context) (page : Nat) : Context :=
  { ctx with eclSearch :=
      { ctx.eclSearch with offset := ctx.eclSearch.count * (page - 1) } }

/-- The simplified response every query builder hands to
`handleSearchField`: a result list, and for paginated expansions also the
echoed `offset`, the page size (`count`) and the expansion `total`
(lines 457-464 and 557-564 of `main.js`). -/
structure Response where
  results : List Entry
  offset : Option Nat
  pageSize : Nat
  total : Nat
deriving Repr, DecidableEq

/-- Observable contents of the DOM pieces `handleSearchField` writes:
the results container, its visibility, the pagination controls it renders
(current page, page count), the `#error-container` box and its visibility,
the loading icon state, and a counter of queries issued so far. -/
structure DisplayState where
  resultsContainer : String
  resultsVisible : Bool
  pagination : Option (Nat × Nat)
  errorBox : String
  errorVisible : Bool
  loadingSpinning : Bool
  queriesIssued : Nat
deriving Repr, DecidableEq

/-- A display state with everything blank, as on page load. -/
def emptyDisplayState : DisplayState :=
  { resultsContainer := ""
    resultsVisible := false
    pagination := none
    errorBox := ""
    errorVisible := false
    loadingSpinning := false
    queriesIssued := 0 }

/-- The synchronous prefix of `handleSearchField` (lines 247-253 of
`main.js`): start the loading animation and invoke the query builder —
the only place a query is issued from the handler. -/
def handleSearchFieldLaunch (st : DisplayState) : DisplayState :=
  { st with loadingSpinning := true, queriesIssued := st.queriesIssued + 1 }

/-- The fixed text written over the results container on failure (line 297
of `main.js`). -/
def errorNotice : String :=
  "Error. Please check the console or the error box at the top of the page."

/-- Error normalization (lines 299-305 of `main.js`): try to parse the
message as JSON and pretty-print it, fall back to the raw message.  The
`prettyJson` parameter models `JSON.parse` composed with
`JSON.stringify(·, null, 2)`, returning `none` when parsing throws. -/
def normalizeErrorMessage (prettyJson : String → Option String)
    (e : GatewayError) : String :=
  (prettyJson e.message).getD e.message

/-- The response handling of `handleSearchField` (lines 253-308 of
`main.js`).  On success (lines 254-293): discard the response unless its
token is still `context.latestSearchToken` (line 255); otherwise hide the
error box, rebuild the results container (with pagination controls when
the response carries an `offset`), show it and pause the loading icon.  On
failure (lines 294-307): pause the loading icon, overwrite the results
container with the fixed error notice, show the normalized error in the
error box — with no token check. -/
def handleSearchFieldResponse (prettyJson : String → Option String)
    (ctx : Context) (searchToken : Nat) (resultItemBuilder : Entry → String)
    (result : Except GatewayError Response) (st : DisplayState) :
    DisplayState :=
  match result with
  | Except.ok response =>
    if ctx.latestSearchToken ≠ some searchToken then st
    else
      let st1 := { st with errorVisible := false }
      if response.results.length > 0 then
        let pag : Option (Nat × Nat) :=
          match response.offset with
          | some off =>
            some (paginationCurrentPage off response.pageSize,
                  paginationPageCount response.total response.pageSize)
          | none => none
        { st1 with
            resultsContainer :=
              String.join (response.results.map resultItemBuilder)
            pagination := pag
            resultsVisible := true
            loadingSpinning := false }
      else
        { st1 with
            resultsContainer := "No results"
            pagination := none
            resultsVisible := true
            loadingSpinning := false }
  | Except.error e =>
    { st with
        loadingSpinning := false
        resultsContainer := errorNotice
        pagination := none
        resultsVisible := true
        errorBox := normalizeErrorMessage prettyJson e
        errorVisible := true }

/-! ## Helper lemmas about the merged-query reducer -/

lemma mergeResponse_eq (l : List Entry) (ids : List String) (acc : List Entry) :
    mergeResponse l ids acc =
      (ids ++ (dedupFirstSeen ids l).map entryId, acc ++ dedupFirstSeen ids l) := by
  induction l generalizing ids acc with
  | nil => simp [mergeResponse, dedupFirstSeen]
  | cons e rest ih =>
    by_cases h : entryId e ∈ ids
    · simp [mergeResponse, dedupFirstSeen, h, ih]
    · simp [mergeResponse, dedupFirstSeen, h, ih, List.append_assoc]

lemma dedupFirstSeen_append (seen : List String) (l1 l2 : List Entry) :
    dedupFirstSeen seen (l1 ++ l2) =
      dedupFirstSeen seen l1 ++
        dedupFirstSeen (seen ++ (dedupFirstSeen seen l1).map entryId) l2 := by
  induction l1 generalizing seen with
  | nil => simp [dedupFirstSeen]
  | cons e rest ih =>
    by_cases h : entryId e ∈ seen
    · simp [dedupFirstSeen, h, ih]
    · simp [dedupFirstSeen, h, ih, List.append_assoc]

lemma processResultsPopOrder_map_ok (lists : List (List Entry))
    (ids : List String) (acc : List Entry) :
    processResultsPopOrder (lists.map Except.ok) ids acc =
      Except.ok (acc ++ dedupFirstSeen ids lists.flatten) := by
  induction lists generalizing ids acc with
  | nil => simp [processResultsPopOrder, dedupFirstSeen]
  | cons l rest ih =>
    simp only [List.map_cons, processResultsPopOrder, mergeResponse_eq,
      List.flatten_cons]
    rw [ih, dedupFirstSeen_append, List.append_assoc]

lemma mem_map_entryId_dedupFirstSeen (seen : List String) (l : List Entry)
    (i : String) :
    i ∈ (dedupFirstSeen seen l).map entryId ↔ i ∈ l.map entryId ∧ i ∉ seen := by
  induction l generalizing seen with
  | nil => simp [dedupFirstSeen]
  | cons e rest ih =>
    by_cases h : entryId e ∈ seen
    · simp only [dedupFirstSeen, if_pos h, ih, List.map_cons, List.mem_cons]
      constructor
      · rintro ⟨hm, hs⟩
        exact ⟨Or.inr hm, hs⟩
      · rintro ⟨heq | hm, hs⟩
        · exact absurd (heq ▸ h) hs
        · exact ⟨hm, hs⟩
    · simp only [dedupFirstSeen, if_neg h, List.map_cons, List.mem_cons, ih,
        List.mem_append, List.mem_singleton]
      by_cases hi : i = entryId e
      · subst hi
        simp [h]
      · simp only [hi, false_or]
        tauto

lemma nodup_map_entryId_dedupFirstSeen (seen : List String) (l : List Entry) :
    ((dedupFirstSeen seen l).map entryId).Nodup := by
  induction l generalizing seen with
  | nil => simp [dedupFirstSeen]
  | cons e rest ih =>
    by_cases h : entryId e ∈ seen
    · simp only [dedupFirstSeen, if_pos h]
      exact ih seen
    · simp only [dedupFirstSeen, if_neg h, List.map_cons, List.nodup_cons]
      refine ⟨fun hmem => ?_, ih _⟩
      rw [mem_map_entryId_dedupFirstSeen] at hmem
      exact hmem.2 (by simp)

lemma merged_ok_eq (net : String → List (String × String) → RawResponse)
    (queriesArguments : List (String × List (String × String))) :
    mergedFHIRResourceQueries (fun op ps => Except.ok (net op ps))
        queriesArguments =
      Except.ok
        (dedupFirstSeen []
          ((launchedResults net queriesArguments).reverse.flatten)) := by
  have h1 : (queriesArguments.map (fun pair =>
      queryFHIRResource (fun op ps => Except.ok (net op ps)) pair.1 pair.2))
      = (launchedResults net queriesArguments).map Except.ok := by
    simp [queryFHIRResource, launchedResults, List.map_map, Function.comp_def,
      Except.map]
  rw [mergedFHIRResourceQueries, processResults, h1, ← List.map_reverse,
    processResultsPopOrder_map_ok]
  simp

/-! ## Helper lemmas about token minting -/

lemma runMints_concat (ctx : Context) (events : List (Surface × Nat))
    (e : Surface × Nat) :
    runMints ctx (events ++ [e]) = mintToken (runMints ctx events) e.1 e.2 := by
  simp [runMints, List.foldl_append]

/-! ## Claim theorems -/

/-- C1, counterexample: after minting token 1 for a Code-System search and
then token 2 for a Value-Set search, token 1 is still the latest issued on
the Code-System surface, yet its response is no longer accepted — minting
on one surface does supersede the other's token, refuting the claimed
per-surface independence. -/
theorem tokenSurfaceIndependence_counterexample :
    latestTokenOn Surface.codeSystem
        [(Surface.codeSystem, 1), (Surface.valueSet, 2)] = some 1
    ∧ isCurrent (runMints initialContext [(Surface.codeSystem, 1)]) 1 = true
    ∧ isCurrent
        (runMints initialContext [(Surface.codeSystem, 1), (Surface.valueSet, 2)])
        1 = false := by
  refine ⟨rfl, rfl, rfl⟩

/-- C1, amended: all four search surfaces share the single
`context.latestSearchToken` cell, so a response is accepted exactly when
its token is the latest minted globally, across every surface. -/
theorem globalToken_current_iff (events : List (Surface × Nat)) (token : Nat) :
    isCurrent (runMints initialContext events) token = true ↔
      latestTokenGlobal events = some token := by
  induction events using List.reverseRecOn with
  | nil => simp [isCurrent, runMints, initialContext, latestTokenGlobal]
  | append_singleton es e ih =>
    rw [runMints_concat]
    simp [isCurrent, mintToken, latestTokenGlobal, eq_comm]

/-- C2: when a newer token `t2` is current, the late arrival of an older
token `t1`'s successful response is a no-op — the handler compares the
response token to `context.latestSearchToken` before applying anything and
returns the display state exactly as `t2`'s application left it. -/
theorem staleSuccess_noop (prettyJson : String → Option String)
    (builder1 builder2 : Entry → String) (ctx : Context) (t1 t2 : Nat)
    (resp1 resp2 : Response) (st : DisplayState) (hlt : t1 < t2)
    (hcur : ctx.latestSearchToken = some t2) :
    handleSearchFieldResponse prettyJson ctx t1 builder1 (Except.ok resp1)
        (handleSearchFieldResponse prettyJson ctx t2 builder2 (Except.ok resp2) st)
      = handleSearchFieldResponse prettyJson ctx t2 builder2 (Except.ok resp2) st := by
  have hne : ¬ctx.latestSearchToken = some t1 := by
    rw [hcur]
    intro hc
    injection hc with h
    omega
  simp [handleSearchFieldResponse, hne]

/-- Witness for C2 at tokens 1 < 2 with token 2 current. -/
theorem staleSuccess_noop_witness :
    (1 : Nat) < 2
    ∧ ({ initialContext with latestSearchToken := some 2 } : Context).latestSearchToken
        = some 2
    ∧ handleSearchFieldResponse (fun _ => none)
        { initialContext with latestSearchToken := some 2 } 1 (fun _ => "")
        (Except.ok { results := [], offset := none, pageSize := 100, total := 0 })
        (handleSearchFieldResponse (fun _ => none)
          { initialContext with latestSearchToken := some 2 } 2 (fun _ => "")
          (Except.ok { results := [], offset := none, pageSize := 100, total := 0 })
          emptyDisplayState)
      = handleSearchFieldResponse (fun _ => none)
          { initialContext with latestSearchToken := some 2 } 2 (fun _ => "")
          (Except.ok { results := [], offset := none, pageSize := 100, total := 0 })
          emptyDisplayState :=
  ⟨by decide, rfl,
    staleSuccess_noop (fun _ => none) (fun _ => "") (fun _ => "")
      { initialContext with latestSearchToken := some 2 } 1 2
      { results := [], offset := none, pageSize := 100, total := 0 }
      { results := [], offset := none, pageSize := 100, total := 0 }
      emptyDisplayState (by decide) rfl⟩

/-- C3: for any transport and any query list, the merge resolves with
exactly the first-seen deduplication of the responses under the fixed
processing order (the pop order over the launched queries): each resource
identifier occurs at most once (`Nodup`), every identifier of the
responses occurs, and elements are in first-seen order. -/
theorem merged_dedup (net : String → List (String × String) → RawResponse)
    (queriesArguments : List (String × List (String × String))) :
    mergedFHIRResourceQueries (fun op ps => Except.ok (net op ps))
        queriesArguments =
      Except.ok
        (dedupFirstSeen [] ((launchedResults net queriesArguments).reverse.flatten))
    ∧ ((dedupFirstSeen []
        ((launchedResults net queriesArguments).reverse.flatten)).map entryId).Nodup
    ∧ ∀ i,
        i ∈ (dedupFirstSeen []
            ((launchedResults net queriesArguments).reverse.flatten)).map entryId
          ↔ i ∈ ((launchedResults net queriesArguments).flatten).map entryId := by
  refine ⟨merged_ok_eq net queriesArguments,
    nodup_map_entryId_dedupFirstSeen _ _, fun i => ?_⟩
  rw [mem_map_entryId_dedupFirstSeen]
  simp [List.mem_flatten]

/-- An entry returned by the first query of the C4 scenario. -/
def entryNeoFirst : Entry :=
  { fullUrl := "u1", resource := { id := "sct", display := "from first query" } }

/-- An entry with the same identifier returned by the second query of the
C4 scenario, distinguishable by its payload. -/
def entryNeoSecond : Entry :=
  { fullUrl := "u2", resource := { id := "sct", display := "from second query" } }

/-- A transport answering the two C4 queries with overlapping entries. -/
def netOverlap : String → List (String × String) → RawResponse :=
  fun _ ps =>
    if ps = [("name:contains", "x")] then { entry := some [entryNeoFirst] }
    else { entry := some [entryNeoSecond] }

/-- The two requests of the C4 scenario, in the order they are given. -/
def overlapArgs : List (String × List (String × String)) :=
  [("CodeSystem", [("name:contains", "x")]),
   ("CodeSystem", [("description:contains", "x")])]

/-- C4, counterexample: two requests whose responses carry the same
identifier with different payloads.  The code keeps the entry of the
second (last) request, while consuming the responses in the order the
requests were given would keep the entry of the first — the reducer does
not consume responses in request order. -/
theorem merged_requestOrder_counterexample :
    mergedFHIRResourceQueries (fun op ps => Except.ok (netOverlap op ps))
        overlapArgs = Except.ok [entryNeoSecond]
    ∧ mergedInRequestOrder (launchedResults netOverlap overlapArgs)
        = [entryNeoFirst]
    ∧ entryNeoSecond ≠ entryNeoFirst := by
  refine ⟨rfl, rfl, by decide⟩

/-- C4, amended: the reducer is deterministic, but its fixed consumption
order is the reverse of the request order — the pending array is consumed
by `pop()`, so the result equals first-seen deduplication over the
reversed request list. -/
theorem merged_reverseRequestOrder
    (net : String → List (String × String) → RawResponse)
    (queriesArguments : List (String × List (String × String))) :
    mergedFHIRResourceQueries (fun op ps => Except.ok (net op ps))
        queriesArguments =
      Except.ok (mergedInRequestOrder
        ((launchedResults net queriesArguments).reverse)) := by
  rw [merged_ok_eq net queriesArguments]
  rfl

/-- C10: calling `mergedFHIRResourceQueries` with an empty query list
resolves immediately with an empty result list; the result does not
depend on the transport at all, i.e. no network request is consulted, and
no rejection occurs. -/
theorem merged_emptyQueryList
    (net net2 : String → List (String × String) → Except GatewayError RawResponse) :
    mergedFHIRResourceQueries net [] = Except.ok []
    ∧ mergedFHIRResourceQueries net [] = mergedFHIRResourceQueries net2 [] :=
  ⟨rfl, rfl⟩

/-! ## Pagination arithmetic -/

lemma ceilDiv_le_iff (a b k : Nat) (hb : 0 < b) :
    ceilDiv a b ≤ k ↔ a ≤ k * b := by
  simp only [ceilDiv]
  rw [Nat.div_le_iff_le_mul_add_pred hb, Nat.mul_comm k b]
  generalize b * k = m
  omega

lemma paginationCurrentPage_of_dvd (off pageSize : Nat) (hps : 0 < pageSize)
    (hdvd : pageSize ∣ off) :
    paginationCurrentPage off pageSize = off / pageSize + 1 := by
  obtain ⟨c, rfl⟩ := hdvd
  simp only [paginationCurrentPage, ceilDiv]
  have h1 : pageSize * c + pageSize - 1 = pageSize * c + (pageSize - 1) := by
    omega
  rw [h1, Nat.mul_add_div hps, Nat.mul_div_cancel_left c hps,
    Nat.div_eq_of_lt (by omega)]

/-- C5, amended: page navigation recomputes the offset as
`pageSize * (page - 1)` (for both the Concept and the ECL surface), the
displayed page count is the ceiling of `total / pageSize` (the least `k`
with `total ≤ k * pageSize`), and the displayed current page is
`ceil(offset / pageSize) + 1`, which coincides with the claimed
`floor(offset / pageSize) + 1` whenever `pageSize` divides the offset —
the only offsets page navigation produces. -/
theorem pagination_arithmetic (ctx : Context) (page total off pageSize : Nat)
    (hps : 0 < pageSize) (hdvd : pageSize ∣ off) :
    (conceptPageChange ctx page).conceptSearch.offset
        = ctx.conceptSearch.count * (page - 1)
    ∧ (eclPageChange ctx page).eclSearch.offset
        = ctx.eclSearch.count * (page - 1)
    ∧ total ≤ paginationPageCount total pageSize * pageSize
    ∧ (∀ k, total ≤ k * pageSize → paginationPageCount total pageSize ≤ k)
    ∧ paginationCurrentPage off pageSize = off / pageSize + 1 := by
  refine ⟨rfl, rfl, ?_, ?_, paginationCurrentPage_of_dvd off pageSize hps hdvd⟩
  · exact (ceilDiv_le_iff total pageSize _ hps).mp le_rfl
  · exact fun k hk => (ceilDiv_le_iff total pageSize k hps).mpr hk

/-- Witness for C5 at the spec's example: `pageSize = 100`, `total = 250`,
page 3, offset 200 — and the concrete page numbers 1 and 3 and page count
3 from the spec's pagination example. -/
theorem pagination_arithmetic_witness :
    (0 : Nat) < 100 ∧ (100 : Nat) ∣ 200
    ∧ ((conceptPageChange initialContext 3).conceptSearch.offset
          = initialContext.conceptSearch.count * (3 - 1)
        ∧ (eclPageChange initialContext 3).eclSearch.offset
          = initialContext.eclSearch.count * (3 - 1)
        ∧ 250 ≤ paginationPageCount 250 100 * 100
        ∧ (∀ k, 250 ≤ k * 100 → paginationPageCount 250 100 ≤ k)
        ∧ paginationCurrentPage 200 100 = 200 / 100 + 1)
    ∧ (conceptPageChange initialContext 1).conceptSearch.offset = 0
    ∧ (conceptPageChange initialContext 3).conceptSearch.offset = 200
    ∧ paginationPageCount 250 100 = 3
    ∧ paginationCurrentPage 200 100 = 3 :=
  ⟨by decide, by decide,
    pagination_arithmetic initialContext 3 250 200 100 (by decide) (by decide),
    by decide, by decide, by decide, by decide⟩

/-- A concept entry used by concrete display-state scenarios. -/
def exampleEntry : Entry :=
  { fullUrl := "url", resource := { id := "404684003", display := "Clinical finding" } }

/-- C5, counterexample: a successful paginated response whose offset is
not a multiple of the page size.  The handler displays current page
`ceil(150 / 100) + 1 = 3`, but the claimed formula
`floor(150 / 100) + 1` gives 2 — the claim's universally quantified
current-page formula does not match the code. -/
theorem currentPage_floor_counterexample :
    (handleSearchFieldResponse (fun _ => none)
        { initialContext with latestSearchToken := some 7 } 7 (fun _ => "item")
        (Except.ok
          { results := [exampleEntry], offset := some 150, pageSize := 100,
            total := 400 })
        emptyDisplayState).pagination = some (3, 4)
    ∧ 150 / 100 + 1 = 2
    ∧ (3 : Nat) ≠ 2 := by
  refine ⟨rfl, by decide, by decide⟩

/-! ## ECL rendering -/

lemma updateSearchString_foldl (rows : List FilterRow)
    (acc : List String × List String) :
    rows.foldl updateSearchStringStep acc =
      (acc.1 ++ rows.filterMap emitRowShort,
       acc.2 ++ rows.filterMap emitRowLong) := by
  induction rows generalizing acc with
  | nil => simp
  | cons f rest ih =>
    rw [List.foldl_cons, ih]
    by_cases h1 : f.opLong = "ANY"
    · simp [updateSearchStringStep, emitRowShort, emitRowLong, h1,
        List.append_assoc]
    · by_cases h2 : f.code = ""
      · simp [updateSearchStringStep, emitRowShort, emitRowLong, h1, h2]
      · by_cases h3 : f.label = ""
        · simp [updateSearchStringStep, emitRowShort, emitRowLong, h1, h2, h3,
            List.append_assoc]
        · simp [updateSearchStringStep, emitRowShort, emitRowLong, h1, h2, h3,
            List.append_assoc]

/-- C6: the ECL rendering is exactly the row-wise emission the claim
describes, joined with a comma-space separator: `ANY` rows emit the bare
operator in both forms, rows with an empty code are omitted, labelled rows
emit `op code|label|`, unlabelled rows emit `op code`; including the
claim's concrete examples. -/
theorem eclRender_rows (rows : List FilterRow) :
    updateSearchString rows
        = (rows.filterMap emitRowShort, rows.filterMap emitRowLong)
    ∧ eclSearchFieldValue rows
        = String.intercalate ", " (rows.filterMap emitRowShort)
    ∧ updateSearchString
          [{ op := "<!", opLong := "childOf", code := "55342001",
             label := "Neoplastic disease" }]
        = (["<! 55342001|Neoplastic disease|"],
           ["childOf 55342001|Neoplastic disease|"])
    ∧ eclSearchFieldValue
          [{ op := "*", opLong := "ANY", code := "ignored code",
             label := "ignored label" }] = "*"
    ∧ updateSearchString
          [{ op := "<<", opLong := "descendantOrSelfOf", code := "12345",
             label := "" },
           { op := "<", opLong := "descendantOf", code := "",
             label := "whatever" }]
        = (["<< 12345"], ["descendantOrSelfOf 12345"]) := by
  refine ⟨?_, ?_, by decide, by decide, by decide⟩
  · simpa using updateSearchString_foldl rows ([], [])
  · rw [eclSearchFieldValue, updateSearchString, updateSearchString_foldl]
    simp

/-! ## Minimum-length gate -/

/-- C7: for every trigger event (a change event, or an Enter keypress),
the subscription handler invokes the search callback if and only if the
trimmed field value reaches `minLength` (defaulting to 2 when the argument
is omitted); on fire the shared token cell is set to the freshly minted
token, otherwise the context is untouched; and with the ECL surface's
`minLength = 1` the gate is exactly `1 ≤ length`. -/
theorem minLengthGate (minLength : Option Nat) (evt : FieldEvent) (now : Nat)
    (ctx : Context)
    (htrig : evt.type = EventType.change
      ∨ (evt.type = EventType.keypress ∧ evt.keyCode = 13)) :
    ((subscribeHandler minLength evt now ctx).2 = true ↔
        minLength.getD 2 ≤ (jsTrim evt.value).length)
    ∧ ((subscribeHandler minLength evt now ctx).2 = true →
        (subscribeHandler minLength evt now ctx).1
          = { ctx with latestSearchToken := some now })
    ∧ ((subscribeHandler minLength evt now ctx).2 = false →
        (subscribeHandler minLength evt now ctx).1 = ctx)
    ∧ ((subscribeHandler eclSearchMinLength evt now ctx).2 = true ↔
        1 ≤ (jsTrim evt.value).length) := by
  have hguard : ¬(evt.type = EventType.keypress ∧ evt.keyCode ≠ 13) := by
    rcases htrig with h | ⟨h1, h2⟩
    · intro hc
      rw [h] at hc
      exact absurd hc.1 (by simp)
    · intro hc
      exact hc.2 h2
  have core : ∀ ml : Option Nat,
      ((subscribeHandler ml evt now ctx).2 = true ↔
        ml.getD 2 ≤ (jsTrim evt.value).length)
      ∧ ((subscribeHandler ml evt now ctx).2 = true →
          (subscribeHandler ml evt now ctx).1
            = { ctx with latestSearchToken := some now })
      ∧ ((subscribeHandler ml evt now ctx).2 = false →
          (subscribeHandler ml evt now ctx).1 = ctx) := by
    intro ml
    by_cases hlen : (jsTrim evt.value).length < ml.getD 2
    · refine ⟨?_, ?_, ?_⟩ <;> simp [subscribeHandler, hguard, hlen]
    · refine ⟨?_, ?_, ?_⟩ <;> simp [subscribeHandler, hguard, hlen]
      omega
  refine ⟨(core minLength).1, (core minLength).2.1, (core minLength).2.2, ?_⟩
  simpa [eclSearchMinLength] using (core eclSearchMinLength).1

/-- Witness for C7: a change event whose trimmed value has length 1 does
not fire with the default threshold but does fire (and mints token 5) with
the ECL surface's threshold of 1. -/
theorem minLengthGate_witness :
    ((FieldEvent.mk EventType.change 0 " a ").type = EventType.change
      ∨ ((FieldEvent.mk EventType.change 0 " a ").type = EventType.keypress
          ∧ (FieldEvent.mk EventType.change 0 " a ").keyCode = 13))
    ∧ (((subscribeHandler none (FieldEvent.mk EventType.change 0 " a ") 5
            initialContext).2 = true ↔
          (none : Option Nat).getD 2
            ≤ (jsTrim (FieldEvent.mk EventType.change 0 " a ").value).length)
        ∧ ((subscribeHandler none (FieldEvent.mk EventType.change 0 " a ") 5
              initialContext).2 = true →
            (subscribeHandler none (FieldEvent.mk EventType.change 0 " a ") 5
                initialContext).1
              = { initialContext with latestSearchToken := some 5 })
        ∧ ((subscribeHandler none (FieldEvent.mk EventType.change 0 " a ") 5
              initialContext).2 = false →
            (subscribeHandler none (FieldEvent.mk EventType.change 0 " a ") 5
                initialContext).1 = initialContext)
        ∧ ((subscribeHandler eclSearchMinLength
              (FieldEvent.mk EventType.change 0 " a ") 5 initialContext).2 = true ↔
            1 ≤ (jsTrim (FieldEvent.mk EventType.change 0 " a ").value).length))
    ∧ (subscribeHandler none (FieldEvent.mk EventType.change 0 " a ") 5
        initialContext).2 = false
    ∧ (subscribeHandler eclSearchMinLength
        (FieldEvent.mk EventType.change 0 " a ") 5 initialContext).2 = true
    ∧ (subscribeHandler eclSearchMinLength
        (FieldEvent.mk EventType.change 0 " a ") 5
        initialContext).1.latestSearchToken = some 5 :=
  ⟨Or.inl rfl,
    minLengthGate none (FieldEvent.mk EventType.change 0 " a ") 5 initialContext
      (Or.inl rfl),
    by decide, by decide, by decide⟩

/-! ## Error handling -/

/-- C8: the error branch of the response handling runs identically
whatever the current token or context is (there is no token-currency check
on the error path), and it surfaces the normalized error: the
pretty-printed JSON when the message parses, the raw message verbatim
otherwise. -/
theorem errorAlwaysSurfaced (prettyJson : String → Option String)
    (ctx ctx2 : Context) (t t2 : Nat) (builder1 builder2 : Entry → String)
    (e : GatewayError) (st : DisplayState) :
    handleSearchFieldResponse prettyJson ctx t builder1 (Except.error e) st
        = handleSearchFieldResponse prettyJson ctx2 t2 builder2 (Except.error e) st
    ∧ (handleSearchFieldResponse prettyJson ctx t builder1 (Except.error e)
        st).errorBox = (prettyJson e.message).getD e.message
    ∧ (handleSearchFieldResponse prettyJson ctx t builder1 (Except.error e)
        st).errorVisible = true :=
  ⟨rfl, rfl, rfl⟩

/-- A display state holding the results of an earlier successful search. -/
def priorDisplay : DisplayState :=
  { resultsContainer := "previous results"
    resultsVisible := true
    pagination := some (1, 3)
    errorBox := ""
    errorVisible := false
    loadingSpinning := true
    queriesIssued := 1 }

/-- C9, counterexample: on a failing search the handler does not leave the
previously displayed results unchanged — it overwrites the results
container with the fixed error notice. -/
theorem failurePreservesResults_counterexample :
    (handleSearchFieldResponse (fun _ => none) initialContext 1 (fun _ => "")
        (Except.error { message := "boom" }) priorDisplay).resultsContainer
      = errorNotice
    ∧ priorDisplay.resultsContainer = "previous results"
    ∧ (handleSearchFieldResponse (fun _ => none) initialContext 1 (fun _ => "")
        (Except.error { message := "boom" }) priorDisplay).resultsContainer
      ≠ priorDisplay.resultsContainer := by
  refine ⟨rfl, rfl, by decide⟩

/-- C9, amended: on every failing search the results container is
overwritten with the fixed error notice (replacing the prior results), the
error indicator is shown with the normalized error, the loading icon is
paused, and no retry is issued (the handler launches no query: the
issued-query counter is unchanged, `handleSearchFieldLaunch` being the
only place it grows). -/
theorem failureOverwritesResults (prettyJson : String → Option String)
    (ctx : Context) (t : Nat) (builder1 : Entry → String) (e : GatewayError)
    (st : DisplayState) :
    (handleSearchFieldResponse prettyJson ctx t builder1 (Except.error e)
        st).resultsContainer = errorNotice
    ∧ (handleSearchFieldResponse prettyJson ctx t builder1 (Except.error e)
        st).errorVisible = true
    ∧ (handleSearchFieldResponse prettyJson ctx t builder1 (Except.error e)
        st).errorBox = normalizeErrorMessage prettyJson e
    ∧ (handleSearchFieldResponse prettyJson ctx t builder1 (Except.error e)
        st).loadingSpinning = false
    ∧ (handleSearchFieldResponse prettyJson ctx t builder1 (Except.error e)
        st).queriesIssued = st.queriesIssued :=
  ⟨rfl, rfl, rfl, rfl, rfl⟩

end TermBrowser
